import Mathlib

/-! dpc node: request routing, file-server accounting and the downloader

A shallow embedding of `pkg/node/server.go` and
`pkg/node/downloader/downloader.go`.

Every call the Go code makes to a collaborator (the HTTP client, the
scheduler, the filesystem, the reverse proxies, the logger) is recorded as an
event of a trace, in program order.  The result of each such call is supplied
by an explicit environment record.  The two blocking points are modelled: a receive
from `d.Queue` with no send pending, and a send on `d.Queue` that the `Run`
loop does not receive.  A panic of the wrapped file-serving handler is
modelled as well.
-/

namespace Dpc

/-! ## Strings -/

/-- Go `strings.TrimPrefix s p`. -/
def stringsTrimPrefix (s p : String) : String :=
  if p.data.isPrefixOf s.data then String.mk (s.data.drop p.data.length) else s

/-- Worker of `strings.Split` for a non-empty separator: `skip` counts the
characters of a separator occurrence that are still to be consumed, `acc`
holds the current piece reversed. -/
def stringsSplitGo (sep : List Char) : Nat → List Char → List Char → List String
  | _, [], acc => [String.mk acc.reverse]
  | k + 1, _ :: cs, acc => stringsSplitGo sep k cs acc
  | 0, c :: cs, acc =>
    if sep.isPrefixOf (c :: cs) then
      String.mk acc.reverse :: stringsSplitGo sep (sep.length - 1) cs []
    else
      stringsSplitGo sep 0 cs (c :: acc)

/-- Go `strings.Split s sep` for a non-empty `sep`: the pieces of `s` between
the leftmost non-overlapping occurrences of `sep`. -/
def stringsSplit (s sep : String) : List String :=
  stringsSplitGo sep.data 0 s.data []

/-! ## HTTP data -/

/-- The fields of `http.Request` the node reads or rewrites. -/
structure Request where
  Method : String
  RequestURI : String
  URL : String
  Host : String
deriving DecidableEq

/-- Go `http.Header`, a `map[string][]string`; a key that is not in the map
yields the nil slice. -/
abbrev Header := String → List String

/-- The fields of `http.Response` the node reads.  `Body` is the byte stream
the response body delivers. -/
structure Response where
  Header : Header
  Body : List Nat

/-- The least value of a Go `int` on a 64-bit platform. -/
def minInt : Int := -9223372036854775808

/-- The greatest value of a Go `int` on a 64-bit platform. -/
def maxInt : Int := 9223372036854775807

/-- The Go `int` that an arithmetic result is stored as: the value modulo
`2^64` in the range from `minInt` to `maxInt` (two's complement wrap-around). -/
def wrapInt (x : Int) : Int :=
  (x - minInt) % 18446744073709551616 + minInt

/-- Modelled from the spec: the declaration of the scheduler's `NodeStat`
record returned by `Node.Info` is not among the sources; the spec gives it as
`Info() → {connections, maxConnections}`, two connection counts.  They are
taken as Go `int` fields: integers from `minInt` to `maxInt`. -/
structure NodeStat where
  Connections : Int
  MaxConnections : Int
  connectionsInt : minInt ≤ Connections ∧ Connections ≤ maxInt
  maxConnectionsInt : minInt ≤ MaxConnections ∧ MaxConnections ≤ maxInt
deriving DecidableEq

/-- The type `downloader.Item`. -/
structure Item where
  Req : Request
  FilePath : String
deriving DecidableEq

/-! ## `Downloader` -/

/-- The files of the data directory: the bytes stored at each path. -/
abbrev FS := String → Option (List Nat)

/-- The file at `p` now holds `b`. -/
def FS.write (fs : FS) (p : String) (b : List Nat) : FS :=
  fun q => if q = p then some b else fs q

/-- The file at `p` is gone. -/
def FS.erase (fs : FS) (p : String) : FS :=
  fun q => if q = p then none else fs q

/-- Go `textproto.CanonicalMIMEHeaderKey` on a key of letters, digits and
hyphens: the first letter and every letter after a hyphen in upper case, the
others in lower case. -/
def canonicalMIMEHeaderKeyGo : Bool → List Char → List Char
  | _, [] => []
  | up, c :: cs => (if up then c.toUpper else c.toLower) :: canonicalMIMEHeaderKeyGo (c == '-') cs

/-- Go `Header.Get`: the first value stored under the canonical form of
`key`, the empty string when there is none. -/
def Header.Get (h : Header) (key : String) : String :=
  (h (String.mk (canonicalMIMEHeaderKeyGo true key.data))).headD ""

/-- Results of the library calls of `Downloader.download` and `Downloader.Run`.
`clientDo` is `d.Client.Do`; `osCreate p` is the error of `os.Create p`
(`none` when the file was created or truncated); `ioCopy resp` is `none` when
`io.Copy` wrote the whole body, and `some (n, e)` when it stopped with error
`e` after writing the first `n` bytes; `osRemove p` is the error `os.Remove`
returns for a file that exists at `p` (`none` when it removes the file). -/
structure DownloadEnv where
  clientDo : Request → Except String Response
  osCreate : String → Option String
  ioCopy : Response → Option (Nat × String)
  osRemove : String → Option String

/-- The errors `download` returns. -/
inductive DownloadError where
  | request (e : String)
  | create (e : String)
  | copy
  | sizeMismatch (wanted actual : String)
deriving DecidableEq

/-- The method `Downloader.download`: the filesystem after the call and the
error returned (`none` for nil). -/
def download (env : DownloadEnv) (fs : FS) (item : Item) : FS × Option DownloadError :=
  match env.clientDo item.Req with
  | .error e => (fs, some (.request e))
  | .ok resp =>
    match env.osCreate item.FilePath with
    | some e => (fs, some (.create e))
    | none =>
      match env.ioCopy resp with
      | some (n, _) => (fs.write item.FilePath (resp.Body.take n), some .copy)
      | none =>
        let size := resp.Body.length
        let fs1 := fs.write item.FilePath resp.Body
        if Header.Get resp.Header "content-length" != Nat.repr size then
          (fs1, some (.sizeMismatch (Header.Get resp.Header "content-length") (Nat.repr size)))
        else
          (fs1, none)

/-- Go `os.Remove p`: an error and no change when there is no file at `p` or
when the removal is refused, else the file is removed. -/
def osRemove (env : DownloadEnv) (fs : FS) (p : String) : FS × Option String :=
  match fs p with
  | none => (fs, some "no such file or directory")
  | some _ =>
    match env.osRemove p with
    | some e => (fs, some e)
    | none => (fs.erase p, none)

/-- The state the `Run` loop works on.  `Queue` holds the sends pending on the
unbuffered channel `d.Queue`, oldest first, each made by a caller of `Push`
that is blocked until its item is received; `fs` is the files on disk;
`Trigger` is `killswitch.Trigger`. -/
structure DownloaderState where
  Queue : List Item
  fs : FS
  Trigger : Bool

/-- Calls made by the `Run` loop, in program order. -/
inductive RunEvent where
  | log (level msg : String)
  | pop (item : Item)
  | download (item : Item)
  | remove (path : String)
deriving DecidableEq

/-- The method `Downloader.Pop`: receive from `d.Queue`; `none` while no send
is pending (the receive blocks). -/
def Pop (s : DownloaderState) : Option (Item × DownloaderState) :=
  match s.Queue with
  | [] => none
  | item :: rest => some (item, { s with Queue := rest })

/-- One iteration of the `for` loop of `Downloader.Run`: the state at the
start of the next iteration and the calls made; `none` when the iteration is
blocked in `Pop`. -/
def runIteration (env : DownloadEnv) (s : DownloaderState) :
    Option (DownloaderState × List RunEvent) :=
  if s.Trigger then
    some (s, [.log "warning" "Max disk space reached, unable to download new files"])
  else
    match Pop s with
    | none => none
    | some (lastItem, s1) =>
      let t0 : List RunEvent := [.pop lastItem, .download lastItem]
      match download env s1.fs lastItem with
      | (fs1, some _) =>
        let t1 := t0 ++ [.log "error" "failed to download item", .log "info" "removing file",
                         .remove lastItem.FilePath]
        match osRemove env fs1 lastItem.FilePath with
        | (fs2, some _) =>
          some ({ s1 with fs := fs2 }, t1 ++ [.log "error" "failed to delete corrupt file"])
        | (fs2, none) => some ({ s1 with fs := fs2 }, t1)
      | (fs1, none) => some ({ s1 with fs := fs1 }, t0 ++ [.log "info" "cached"])

/-- The `for` loop of `Downloader.Run` for `n` iterations, stopping where an
iteration is blocked in `Pop`: the state reached and the calls made. -/
def runLoop (env : DownloadEnv) : Nat → DownloaderState → DownloaderState × List RunEvent
  | 0, s => (s, [])
  | n + 1, s =>
    match runIteration env s with
    | none => (s, [])
    | some (s1, t1) => ((runLoop env n s1).1, t1 ++ (runLoop env n s1).2)

/-- The method `Downloader.Push`: the item `(req, filepath)` is built and sent
on `d.Queue`.  The channel is unbuffered, so the send joins the pending sends
and the caller is blocked until `Run` receives the item through `Pop`.  The
`Run` loop is run for one iteration per pending send; the result is the state
it reaches, the calls it made, and whether it received the item, that is,
whether `Push` returns to its caller. -/
def Push (env : DownloadEnv) (s : DownloaderState) (req : Request) (filepath : String) :
    DownloaderState × List RunEvent × Bool :=
  let item : Item := ⟨req, filepath⟩
  let sent : DownloaderState := { s with Queue := s.Queue ++ [item] }
  ((runLoop env sent.Queue.length sent).1, (runLoop env sent.Queue.length sent).2,
    (runLoop env sent.Queue.length sent).1.Queue.isEmpty)

/-! ## `Server.ProxyRequestHandler` -/

/-- The fields of `Server` the handlers read: the upstream address, the data
directory, the compiled eligibility pattern, given by its `MatchString`, and
the state of `srv.Downloader`. -/
structure Server where
  Address : String
  DataDir : String
  Regex : String → Bool
  Downloader : DownloaderState

/-- Results of the calls `ProxyRequestHandler` makes outside `server.go`.
`copyRequest`, `runRequestCheck`, `generateHash` and `proxyToPeer` are
helpers of package `node`; `osStat p` tells whether `os.Stat p` returned a nil
error; `nodeInfo` is the result of `srv.Node.Info()`.  `proxyToPeer` rewrites
the request it is given in place; the rewritten request is its result here.
`worker` holds the results of the library calls the `Run` loop makes while the
handler waits in `Push`. -/
structure Env where
  copyRequest : Request → String → String → String → Except String Request
  runRequestCheck : Request → Except String Response
  generateHash : String → String → String
  osStat : String → Bool
  nodeInfo : Except String NodeStat
  proxyToPeer : Request → NodeStat → String → Request
  worker : DownloadEnv

/-- Calls made by the handlers of `server.go`, in program order. -/
inductive Event where
  | log (level msg : String)
  | headProbe (req : Request)
  | stat (path : String)
  | info
  | proxyToPeer (r : Request) (self : NodeStat) (path : String)
  | push (item : Item)
  | serveUpstream (r : Request)
  | serveFake (r : Request)
  | addConnection
  | serveFile (r : Request)
  | removeConnection
deriving DecidableEq

/-- What one run of `ProxyRequestHandler` did: the calls it made; the
expression that panicked when it stopped on a Go run-time panic (an index out
of range); whether it is blocked in the channel send of `Push`; the state of
the downloader and the calls the `Run` loop made meanwhile. -/
structure Outcome where
  trace : List Event
  panicked : Option String
  blocked : Bool
  downloader : DownloaderState
  worker : List RunEvent

/-- Label `runProxy`: log, then `proxy.ServeHTTP(w, r)`. -/
def runProxy (t : List Event) (r : Request) (d : DownloaderState) (w : List RunEvent) :
    Outcome :=
  ⟨t ++ [.log "info" "request is going to upstream", .serveUpstream r], none, false, d, w⟩

/-- Label `runFakeProxy`: log, then `fakeProxy.ServeHTTP(w, r)`. -/
def runFakeProxy (t : List Event) (r : Request) (d : DownloaderState) : Outcome :=
  ⟨t ++ [.log "info" "request is being cached", .serveFake r], none, false, d, []⟩

/-- The function returned by `srv.ProxyRequestHandler(proxy, fakeProxy, proxyPath)`,
applied to the request `r`. -/
def ProxyRequestHandler (srv : Server) (env : Env) (proxyPath : String) (r : Request) :
    Outcome :=
  if srv.Regex r.RequestURI && r.Method == "GET" then
    let t0 : List Event := [.log "debug" "regex matched"]
    let upstreamUrl := srv.Address ++ stringsTrimPrefix r.RequestURI proxyPath
    match (stringsSplit srv.Address "://")[1]? with
    | none => ⟨t0, some "strings.Split(srv.Upstream.Address, \"://\")[1]", false,
        srv.Downloader, []⟩
    | some upstreamHost =>
      match env.copyRequest r upstreamUrl upstreamHost "HEAD" with
      | .error _ =>
        runProxy (t0 ++ [.log "error" "Error parsing http resource for head request"]) r
          srv.Downloader []
      | .ok headReq =>
        let t1 := t0 ++ [.headProbe headReq]
        match env.runRequestCheck headReq with
        | .error _ =>
          runProxy (t1 ++ [.log "warn" "falling back to upstream, because of error"]) r
            srv.Downloader []
        | .ok headResp =>
          match headResp.Header "Etag" with
          | [] => ⟨t1, some "headResp.Header[\"Etag\"][0]", false, srv.Downloader, []⟩
          | etag :: _ =>
            let item := env.generateHash r.URL etag
            let filePathOS := srv.DataDir ++ "/" ++ item
            let fileServerPath := "/fs/" ++ item
            let t2 := t1 ++ [.log "debug" "item name", .stat filePathOS]
            if env.osStat filePathOS then
              let t3 := t2 ++ [.info]
              match env.nodeInfo with
              | .error _ =>
                runProxy (t3 ++ [.log "error" "failed to contact scheduler to get node info"]) r
                  srv.Downloader []
              | .ok selfInfo =>
                let t4 := t3 ++ [.log "debug" "retrieved node info"]
                if wrapInt (selfInfo.Connections + 1) ≥ selfInfo.MaxConnections then
                  runProxy (t4 ++ [.log "warn" "Max connections for peer already reached"]) r
                    srv.Downloader []
                else
                  runFakeProxy (t4 ++ [.proxyToPeer r selfInfo fileServerPath])
                    (env.proxyToPeer r selfInfo fileServerPath) srv.Downloader
            else
              let t3 := t2 ++ [.log "debug" "file not found in local cache",
                               .log "debug" "heating cache for next requests"]
              match env.copyRequest r upstreamUrl upstreamHost "GET" with
              | .error _ =>
                runProxy (t3 ++ [.log "error" "request copy for downloader failed"]) r
                  srv.Downloader []
              | .ok upstreamReq =>
                let t4 := t3 ++ [.push ⟨upstreamReq, filePathOS⟩]
                match Push env.worker srv.Downloader upstreamReq filePathOS with
                | (d1, w, true) => runProxy t4 r d1 w
                | (d1, w, false) => ⟨t4, none, true, d1, w⟩
  else
    runProxy [] r srv.Downloader []

/-! ## `Server.HandleFileserver` -/

/-- Results of the two scheduler calls of `HandleFileserver`: the error each
returns, `none` for a nil error. -/
structure FileserverEnv where
  addConnection : Option String
  removeConnection : Option String

/-- What one run of the file-serving handler did: the response writer after
it, the calls made, and the panic value when the wrapped handler panicked. -/
structure Served (W : Type) where
  writer : W
  trace : List Event
  panicked : Option String

/-- The handler returned by `srv.HandleFileserver(h)`, applied to the response
writer `w` and the request `r`.  The wrapped handler `h` yields the writer
after `h.ServeHTTP(w, r)` and the panic value when `ServeHTTP` panicked
instead of returning; the closure has no `defer` and no `recover`, so such a
panic leaves it at once. -/
def HandleFileserver {W : Type} (env : FileserverEnv) (h : W → Request → W × Option String)
    (w : W) (r : Request) : Served W :=
  let t0 : List Event := [.addConnection]
  let t1 := match env.addConnection with
    | some _ => t0 ++ [.log "error" "failed to add connection to scheduler"]
    | none => t0
  match h w r with
  | (w1, some p) => ⟨w1, t1 ++ [.serveFile r], some p⟩
  | (w1, none) =>
    let t2 := t1 ++ [.serveFile r, .removeConnection]
    let t3 := match env.removeConnection with
      | some _ => t2 ++ [.log "error" "failed to remove connection from scheduler"]
      | none => t2
    ⟨w1, t3, none⟩

/-! ## The HEAD probe helper -/

/-- Modelled from the spec: `runRequestCheck`, the helper of package `node`
that performs the freshness probe, is not among the sources.  The spec's step
is "issue a conditional HEAD to the computed upstream URL.  Transport error or
missing Etag header → ProxyUpstream (terminal, with a warning log)"; the
warning is the one the handler logs when `runRequestCheck` returns an error.
`clientDo` is the HTTP client's `Do`. -/
def runRequestCheck (clientDo : Request → Except String Response) (req : Request) :
    Except String Response :=
  match clientDo req with
  | .error e => .error e
  | .ok resp =>
    match resp.Header "Etag" with
    | [] => .error "missing Etag header"
    | _ :: _ => .ok resp

/-! ## Reading a trace -/

/-- The items handed to `Downloader.Push`. -/
def pushed : List Event → List Item
  | [] => []
  | .push item :: t => item :: pushed t
  | _ :: t => pushed t

/-- The requests sent as HEAD probes. -/
def headProbes : List Event → List Request
  | [] => []
  | .headProbe q :: t => q :: headProbes t
  | _ :: t => headProbes t

/-- The number of `srv.Node.Info()` calls. -/
def infoCalls : List Event → Nat
  | [] => 0
  | .info :: t => infoCalls t + 1
  | _ :: t => infoCalls t

/-- The arguments of the `proxyToPeer` calls. -/
def peerCalls : List Event → List (Request × NodeStat × String)
  | [] => []
  | .proxyToPeer r self path :: t => (r, self, path) :: peerCalls t
  | _ :: t => peerCalls t

/-- The requests dispatched to the upstream proxy. -/
def upstreamServes : List Event → List Request
  | [] => []
  | .serveUpstream r :: t => r :: upstreamServes t
  | _ :: t => upstreamServes t

/-- The requests dispatched to `fakeProxy`. -/
def fakeServes : List Event → List Request
  | [] => []
  | .serveFake r :: t => r :: fakeServes t
  | _ :: t => fakeServes t

/-- The scheduler and file-serving calls of a trace, logging left out. -/
def calls : List Event → List Event
  | [] => []
  | .log _ _ :: t => calls t
  | e :: t => e :: calls t

/-- The items received from the queue in a trace of `Run`. -/
def popped : List RunEvent → List Item
  | [] => []
  | .pop item :: t => item :: popped t
  | _ :: t => popped t

/-- The items `download` was called on. -/
def downloaded : List RunEvent → List Item
  | [] => []
  | .download item :: t => item :: downloaded t
  | _ :: t => downloaded t

/-- The paths `os.Remove` was called on. -/
def removed : List RunEvent → List String
  | [] => []
  | .remove p :: t => p :: removed t
  | _ :: t => removed t

/-- Whether the error `download` returned is the size mismatch. -/
def isSizeMismatch : Option DownloadError → Bool
  | some (.sizeMismatch _ _) => true
  | _ => false

/-- The file at the item's path after an iteration is intact: there is no
file, or there is one whose byte length, in decimal, is the value of the
`Content-Length` header of the response to the item's request. -/
def fileIntact (env : DownloadEnv) (fs : FS) (item : Item) : Prop :=
  fs item.FilePath = none ∨
  ∃ resp bytes, env.clientDo item.Req = .ok resp ∧ fs item.FilePath = some bytes ∧
    (resp.Header "Content-Length").head? = some (Nat.repr bytes.length)

/-- The files an iteration of `Run` leaves after receiving `item` with the
files `fs` on disk: those `download` left when it returned no error, else
those left by `os.Remove` on the item's path. -/
def filesAfter (env : DownloadEnv) (fs : FS) (item : Item) : FS :=
  match (download env fs item).2 with
  | none => (download env fs item).1
  | some _ => (osRemove env (download env fs item).1 item.FilePath).1

/-! ## Concrete data used in the examples -/

/-- The `MatchString` of the pattern `^/proxy/pkgs/.*\.tgz$`: the text starts
with `/proxy/pkgs/`, ends with `.tgz`, the two do not overlap, and no line
feed stands between them. -/
def tgzPattern (s : String) : Bool :=
  "/proxy/pkgs/".data.isPrefixOf s.data && ".tgz".data.isSuffixOf s.data &&
    decide (16 ≤ s.data.length) && !(s.data.contains '\n')

/-- A response that declares `declared` under `Content-Length` (no header for
`[]`) and delivers `body`. -/
def exampleResponse (declared : List String) (body : List Nat) : Response :=
  ⟨fun k => if k = "Content-Length" then declared else [], body⟩

/-- An upstream that answers with `exampleResponse declared body`; `copyErr`
is the outcome of `io.Copy` and `removeErr` that of `os.Remove` on an existing
file. -/
def exampleDownloadEnv (declared : List String) (body : List Nat)
    (copyErr : Option (Nat × String)) (removeErr : Option String) : DownloadEnv where
  clientDo := fun _ => .ok (exampleResponse declared body)
  osCreate := fun _ => none
  ioCopy := fun _ => copyErr
  osRemove := fun _ => removeErr

/-- A downloader with the sends `queue` pending, an empty data directory and
the given kill switch. -/
def exampleState (queue : List Item) (trigger : Bool) : DownloaderState :=
  ⟨queue, fun _ => none, trigger⟩

/-- A server in front of `http://origin.example` caching under `/data`, its
downloader idle and the kill switch clear. -/
def exampleServer : Server :=
  ⟨"http://origin.example", "/data", tgzPattern, exampleState [] false⟩

/-- The request `GET /proxy/pkgs/foo.tgz`. -/
def exampleRequest : Request :=
  ⟨"GET", "/proxy/pkgs/foo.tgz", "/proxy/pkgs/foo.tgz", "node.example"⟩

/-- The scheduler's answer `connections = 2`, `maxConnections = 5`. -/
def statAdmitted : NodeStat :=
  ⟨2, 5, by decide, by decide⟩

/-- The scheduler's answer `connections = 4`, `maxConnections = 5`. -/
def statSaturated : NodeStat :=
  ⟨4, 5, by decide, by decide⟩

/-- The scheduler's answer `connections = maxInt`, `maxConnections = 5`. -/
def statWrapping : NodeStat :=
  ⟨maxInt, 5, by decide, by decide⟩

/-- The HEAD copy of `exampleRequest` that `exampleEnv` makes. -/
def exampleHead : Request :=
  ⟨"HEAD", "", "http://origin.example/pkgs/foo.tgz", "origin.example"⟩

/-- The answer of the upstream of `exampleEnv` to the HEAD probe. -/
def exampleHeadResponse (etags : List String) : Response :=
  ⟨fun k => if k = "Etag" then etags else [], []⟩

/-- An environment for the examples: the upstream answers the HEAD probe with
`etags` under `Etag`, `present` tells whether the candidate file is on disk,
`node` is the scheduler's answer.  A copied request is a client request, with
no `RequestURI`. -/
def exampleEnv (etags : List String) (present : Bool) (node : Except String NodeStat) : Env where
  copyRequest := fun _ url host method => .ok ⟨method, "", url, host⟩
  runRequestCheck := fun _ => .ok (exampleHeadResponse etags)
  generateHash := fun url etag => String.mk ((url ++ etag).data.filter Char.isAlphanum)
  osStat := fun _ => present
  nodeInfo := node
  proxyToPeer := fun r _ path => { r with URL := path }
  worker := exampleDownloadEnv ["3"] [1, 2, 3] none none

/-- The item the miss of `exampleRequest` pushes. -/
def exampleItem : Item :=
  ⟨⟨"GET", "", "http://origin.example/pkgs/foo.tgz", "origin.example"⟩,
   "/data/proxypkgsfootgzabc123"⟩

/-! ## Auxiliary facts -/

/-- An integer in the range of a Go `int` is stored unchanged. -/
theorem wrapInt_eq (x : Int) (h1 : minInt ≤ x) (h2 : x ≤ maxInt) : wrapInt x = x := by
  unfold wrapInt minInt maxInt at *
  omega

/-- The items received in two traces of `Run` put end to end. -/
theorem popped_append (t u : List RunEvent) : popped (t ++ u) = popped t ++ popped u := by
  induction t with
  | nil => rfl
  | cons e t ih => cases e <;> simp [popped, ih]

/-- The items downloaded in two traces of `Run` put end to end. -/
theorem downloaded_append (t u : List RunEvent) :
    downloaded (t ++ u) = downloaded t ++ downloaded u := by
  induction t with
  | nil => rfl
  | cons e t ih => cases e <;> simp [downloaded, ih]

/-- An iteration of `Run` that finds the kill switch clear and a send pending
receives the first item, calls `download` on it, calls `os.Remove` on its path
exactly when `download` returned an error, and leaves the other sends pending. -/
theorem runIteration_receives (env : DownloadEnv) (s : DownloaderState) (item : Item)
    (rest : List Item) (hT : s.Trigger = false) (hQ : s.Queue = item :: rest) :
    ∃ t, runIteration env s = some (⟨rest, filesAfter env s.fs item, false⟩, t) ∧
      popped t = [item] ∧ downloaded t = [item] ∧
      removed t = (if (download env s.fs item).2.isSome then [item.FilePath] else []) := by
  rcases hd : download env s.fs item with ⟨fs1, _ | e⟩
  · refine ⟨[.pop item, .download item, .log "info" "cached"], ?_, rfl, rfl, rfl⟩
    simp [runIteration, hT, Pop, hQ, hd, filesAfter]
  · rcases hr : osRemove env fs1 item.FilePath with ⟨fs2, _ | e2⟩
    · refine ⟨[.pop item, .download item, .log "error" "failed to download item",
        .log "info" "removing file", .remove item.FilePath], ?_, rfl, rfl, rfl⟩
      simp [runIteration, hT, Pop, hQ, hd, hr, filesAfter]
    · refine ⟨[.pop item, .download item, .log "error" "failed to download item",
        .log "info" "removing file", .remove item.FilePath,
        .log "error" "failed to delete corrupt file"], ?_, rfl, rfl, rfl⟩
      simp [runIteration, hT, Pop, hQ, hd, hr, filesAfter]

/-- With the kill switch set the `Run` loop changes nothing, however long it
runs: a pending send is never received. -/
theorem runLoop_paused (env : DownloadEnv) (n : Nat) (s : DownloaderState)
    (hT : s.Trigger = true) : (runLoop env n s).1 = s ∧ popped (runLoop env n s).2 = [] := by
  induction n with
  | zero => exact ⟨rfl, rfl⟩
  | succ n ih =>
    have hstep : runIteration env s
        = some (s, [.log "warning" "Max disk space reached, unable to download new files"]) := by
      simp [runIteration, hT]
    simp only [runLoop, hstep]
    exact ⟨ih.1, by rw [popped_append, ih.2]; rfl⟩

/-- With the kill switch clear the `Run` loop receives every pending send, in
order, in as many iterations as there are sends, and calls `download` on each. -/
theorem runLoop_drains (env : DownloadEnv) (q : List Item) (s : DownloaderState)
    (hQ : s.Queue = q) (hT : s.Trigger = false) :
    (runLoop env q.length s).1.Queue = [] ∧ popped (runLoop env q.length s).2 = q ∧
      downloaded (runLoop env q.length s).2 = q := by
  induction q generalizing s with
  | nil => exact ⟨hQ, rfl, rfl⟩
  | cons item rest ih =>
    obtain ⟨t, hstep, hp, hdl, _⟩ := runIteration_receives env s item rest hT hQ
    have h := ih ⟨rest, filesAfter env s.fs item, false⟩ rfl rfl
    simp only [List.length_cons, runLoop, hstep]
    refine ⟨h.1, ?_, ?_⟩
    · rw [popped_append, hp, h.2.1]; rfl
    · rw [downloaded_append, hdl, h.2.2]; rfl

/-- With the kill switch clear `Push` returns: the loop has received the
pending sends and then the item, and has called `download` on each. -/
theorem Push_returns (env : DownloadEnv) (s : DownloaderState) (req : Request)
    (filepath : String) (hT : s.Trigger = false) :
    (Push env s req filepath).2.2 = true ∧ (Push env s req filepath).1.Queue = [] ∧
      popped (Push env s req filepath).2.1 = s.Queue ++ [⟨req, filepath⟩] ∧
      downloaded (Push env s req filepath).2.1 = s.Queue ++ [⟨req, filepath⟩] := by
  have h := runLoop_drains env (s.Queue ++ [⟨req, filepath⟩])
    { s with Queue := s.Queue ++ [⟨req, filepath⟩] } rfl hT
  refine ⟨?_, h.1, h.2.1, h.2.2⟩
  simp only [Push]
  rw [h.1]
  rfl

/-! ## Routing: requests that are not eligible -/

/-- C1: a request whose method is not GET, or whose URI the eligibility
pattern does not match, makes the handler call neither `Downloader.Push`, nor
the HEAD probe, nor the scheduler's `Info`; it is dispatched once to the
upstream proxy, as the last call, and never to `fakeProxy`. -/
theorem ineligible_request_goes_upstream (srv : Server) (env : Env) (proxyPath : String)
    (r : Request) (h : r.Method ≠ "GET" ∨ srv.Regex r.RequestURI = false) :
    (ProxyRequestHandler srv env proxyPath r).panicked = none ∧
    pushed (ProxyRequestHandler srv env proxyPath r).trace = [] ∧
    headProbes (ProxyRequestHandler srv env proxyPath r).trace = [] ∧
    infoCalls (ProxyRequestHandler srv env proxyPath r).trace = 0 ∧
    upstreamServes (ProxyRequestHandler srv env proxyPath r).trace = [r] ∧
    fakeServes (ProxyRequestHandler srv env proxyPath r).trace = [] ∧
    (ProxyRequestHandler srv env proxyPath r).trace.getLast? = some (.serveUpstream r) := by
  have hcond : (srv.Regex r.RequestURI && r.Method == "GET") = false := by
    rcases h with h | h
    · simp [h]
    · simp [h]
  simp [ProxyRequestHandler, hcond, runProxy, pushed, headProbes, infoCalls, upstreamServes,
    fakeServes]

/-- C1 at `POST /proxy/pkgs/foo.tgz`: the pattern matches, the method is not GET. -/
theorem ineligible_request_goes_upstream_witness :
    ({ exampleRequest with Method := "POST" } : Request).Method ≠ "GET" ∧
    upstreamServes (ProxyRequestHandler exampleServer (exampleEnv ["\"abc123\""] true (.ok statAdmitted))
      "/proxy" { exampleRequest with Method := "POST" }).trace
      = [{ exampleRequest with Method := "POST" }] :=
  ⟨by decide,
   (ineligible_request_goes_upstream exampleServer (exampleEnv ["\"abc123\""] true (.ok statAdmitted))
      "/proxy" { exampleRequest with Method := "POST" } (Or.inl (by decide))).2.2.2.2.1⟩

/-! ## Routing: eligible requests -/

/-- Counterexample to C2 as stated: the request is eligible, the probe
succeeds with Etag `"abc123"`, the file is not on disk and the copy for the
upstream succeeds, but the kill switch is set.  The `Run` loop does not
receive the item, the handler stays blocked in the send of `Push`, the item
is still pending and the request is not dispatched to the upstream proxy. -/
theorem miss_with_killswitch_blocks_in_push :
    exampleServer.Regex exampleRequest.RequestURI = true ∧
    exampleRequest.Method = "GET" ∧
    (exampleEnv ["\"abc123\""] false (.error "down")).osStat "/data/proxypkgsfootgzabc123"
      = false ∧
    (ProxyRequestHandler { exampleServer with Downloader := exampleState [] true }
      (exampleEnv ["\"abc123\""] false (.error "down")) "/proxy" exampleRequest).blocked = true ∧
    pushed (ProxyRequestHandler { exampleServer with Downloader := exampleState [] true }
      (exampleEnv ["\"abc123\""] false (.error "down")) "/proxy" exampleRequest).trace
      = [exampleItem] ∧
    upstreamServes (ProxyRequestHandler { exampleServer with Downloader := exampleState [] true }
      (exampleEnv ["\"abc123\""] false (.error "down")) "/proxy" exampleRequest).trace = [] ∧
    (ProxyRequestHandler { exampleServer with Downloader := exampleState [] true }
      (exampleEnv ["\"abc123\""] false (.error "down")) "/proxy" exampleRequest).downloader.Queue
      = [exampleItem] ∧
    popped (ProxyRequestHandler { exampleServer with Downloader := exampleState [] true }
      (exampleEnv ["\"abc123\""] false (.error "down")) "/proxy" exampleRequest).worker = [] :=
  ⟨by decide, by decide, by decide, by decide, by decide, by decide, by decide, by decide⟩

/-- C2, amended: an eligible GET request whose HEAD probe succeeds with Etag
`e`, with no file at `DataDir/generateHash(r.URL, e)`, and whose copy to the
upstream succeeds, calls `Push` exactly once: the item's path is
`DataDir/generateHash(r.URL, e)` and its request is the GET copy made for the
upstream URL `Address ++ TrimPrefix(RequestURI, proxyPath)`.  With the kill
switch not set the `Run` loop receives the item, after the sends that were
pending, and calls `download` on it; `Push` returns, and the request itself
goes once to the upstream proxy, as the last call, and never to `fakeProxy`. -/
theorem miss_pushes_item_and_goes_upstream (srv : Server) (env : Env) (proxyPath : String)
    (r headReq upstreamReq : Request) (host e : String) (es : List String) (resp : Response)
    (hRegex : srv.Regex r.RequestURI = true) (hGet : r.Method = "GET")
    (hHost : (stringsSplit srv.Address "://")[1]? = some host)
    (hHead : env.copyRequest r (srv.Address ++ stringsTrimPrefix r.RequestURI proxyPath) host
      "HEAD" = .ok headReq)
    (hProbe : env.runRequestCheck headReq = .ok resp)
    (hEtag : resp.Header "Etag" = e :: es)
    (hMiss : env.osStat (srv.DataDir ++ "/" ++ env.generateHash r.URL e) = false)
    (hCopy : env.copyRequest r (srv.Address ++ stringsTrimPrefix r.RequestURI proxyPath) host
      "GET" = .ok upstreamReq)
    (hRun : srv.Downloader.Trigger = false) :
    (ProxyRequestHandler srv env proxyPath r).panicked = none ∧
    (ProxyRequestHandler srv env proxyPath r).blocked = false ∧
    pushed (ProxyRequestHandler srv env proxyPath r).trace
      = [⟨upstreamReq, srv.DataDir ++ "/" ++ env.generateHash r.URL e⟩] ∧
    popped (ProxyRequestHandler srv env proxyPath r).worker
      = srv.Downloader.Queue ++ [⟨upstreamReq, srv.DataDir ++ "/" ++ env.generateHash r.URL e⟩] ∧
    downloaded (ProxyRequestHandler srv env proxyPath r).worker
      = srv.Downloader.Queue ++ [⟨upstreamReq, srv.DataDir ++ "/" ++ env.generateHash r.URL e⟩] ∧
    (ProxyRequestHandler srv env proxyPath r).downloader.Queue = [] ∧
    upstreamServes (ProxyRequestHandler srv env proxyPath r).trace = [r] ∧
    fakeServes (ProxyRequestHandler srv env proxyPath r).trace = [] ∧
    (ProxyRequestHandler srv env proxyPath r).trace.getLast? = some (.serveUpstream r) := by
  obtain ⟨hRet, hQ, hPop, hDl⟩ := Push_returns env.worker srv.Downloader upstreamReq
    (srv.DataDir ++ "/" ++ env.generateHash r.URL e) hRun
  rcases hP : Push env.worker srv.Downloader upstreamReq
    (srv.DataDir ++ "/" ++ env.generateHash r.URL e) with ⟨d1, w, b⟩
  rw [hP] at hRet hQ hPop hDl
  simp only at hRet hQ hPop hDl
  subst hRet
  simp [ProxyRequestHandler, hRegex, hGet, hHost, hHead, hProbe, hEtag, hMiss, hCopy, hP,
    runProxy, pushed, upstreamServes, fakeServes, hQ, hPop, hDl]

/-- C2, amended, at the pattern `^/proxy/pkgs/.*\.tgz$`, the request
`GET /proxy/pkgs/foo.tgz` and the Etag `"abc123"`, the file not on disk and
the kill switch clear. -/
theorem miss_pushes_item_and_goes_upstream_witness :
    exampleServer.Regex exampleRequest.RequestURI = true ∧
    pushed (ProxyRequestHandler exampleServer (exampleEnv ["\"abc123\""] false (.error "down"))
      "/proxy" exampleRequest).trace = [exampleItem] ∧
    downloaded (ProxyRequestHandler exampleServer
      (exampleEnv ["\"abc123\""] false (.error "down")) "/proxy" exampleRequest).worker
      = [exampleItem] ∧
    upstreamServes (ProxyRequestHandler exampleServer
      (exampleEnv ["\"abc123\""] false (.error "down")) "/proxy" exampleRequest).trace
      = [exampleRequest] :=
  ⟨by decide,
   (miss_pushes_item_and_goes_upstream exampleServer
      (exampleEnv ["\"abc123\""] false (.error "down")) "/proxy" exampleRequest
      exampleHead exampleItem.Req "origin.example" "\"abc123\"" []
      (exampleHeadResponse ["\"abc123\""])
      (by decide) (by decide) (by decide) (congrArg Except.ok (by decide)) rfl (by decide) rfl
      (congrArg Except.ok (by decide)) rfl).2.2.1,
   by decide, by decide⟩

/-- C3: an eligible GET request that is a cache hit, the scheduler answering
with `Connections + 1 < MaxConnections`, calls `proxyToPeer` once with the path
`"/fs/" ++ key`, is dispatched once to `fakeProxy`, as the last call, never to
the upstream proxy, and pushes nothing. -/
theorem hit_admitted_goes_to_peer (srv : Server) (env : Env) (proxyPath : String)
    (r headReq : Request) (host e : String) (es : List String) (resp : Response)
    (self : NodeStat)
    (hRegex : srv.Regex r.RequestURI = true) (hGet : r.Method = "GET")
    (hHost : (stringsSplit srv.Address "://")[1]? = some host)
    (hHead : env.copyRequest r (srv.Address ++ stringsTrimPrefix r.RequestURI proxyPath) host
      "HEAD" = .ok headReq)
    (hProbe : env.runRequestCheck headReq = .ok resp)
    (hEtag : resp.Header "Etag" = e :: es)
    (hHit : env.osStat (srv.DataDir ++ "/" ++ env.generateHash r.URL e) = true)
    (hInfo : env.nodeInfo = .ok self)
    (hRoom : self.Connections + 1 < self.MaxConnections) :
    (ProxyRequestHandler srv env proxyPath r).panicked = none ∧
    peerCalls (ProxyRequestHandler srv env proxyPath r).trace
      = [(r, self, "/fs/" ++ env.generateHash r.URL e)] ∧
    fakeServes (ProxyRequestHandler srv env proxyPath r).trace
      = [env.proxyToPeer r self ("/fs/" ++ env.generateHash r.URL e)] ∧
    upstreamServes (ProxyRequestHandler srv env proxyPath r).trace = [] ∧
    pushed (ProxyRequestHandler srv env proxyPath r).trace = [] ∧
    (ProxyRequestHandler srv env proxyPath r).trace.getLast?
      = some (.serveFake (env.proxyToPeer r self ("/fs/" ++ env.generateHash r.URL e))) := by
  have hw : wrapInt (self.Connections + 1) = self.Connections + 1 :=
    wrapInt_eq _ (by have := self.connectionsInt.1; omega)
      (by have := self.maxConnectionsInt.2; omega)
  have hlt : ¬ (self.MaxConnections ≤ self.Connections + 1) := not_le.mpr hRoom
  simp [ProxyRequestHandler, hRegex, hGet, hHost, hHead, hProbe, hEtag, hHit, hInfo, hw, hlt,
    runFakeProxy, pushed, upstreamServes, fakeServes, peerCalls]

/-- C3 at `connections = 2`, `maxConnections = 5`. -/
theorem hit_admitted_goes_to_peer_witness :
    (statAdmitted.Connections + 1 < statAdmitted.MaxConnections) ∧
    peerCalls (ProxyRequestHandler exampleServer (exampleEnv ["\"abc123\""] true (.ok statAdmitted))
      "/proxy" exampleRequest).trace
      = [(exampleRequest, statAdmitted, "/fs/proxypkgsfootgzabc123")] :=
  ⟨by decide,
   (hit_admitted_goes_to_peer exampleServer (exampleEnv ["\"abc123\""] true (.ok statAdmitted))
      "/proxy" exampleRequest exampleHead "origin.example" "\"abc123\"" []
      (exampleHeadResponse ["\"abc123\""]) statAdmitted
      (by decide) (by decide) (by decide) (congrArg Except.ok (by decide)) rfl (by decide) rfl
      rfl (by decide)).2.1⟩

/-- Counterexample to C4 as stated: the scheduler answers with
`connections = maxInt` and `maxConnections = 5`, so `connections + 1` is at
least `maxConnections`; the sum wraps to `minInt`, the comparison fails, and
the request goes to `proxyToPeer` and `fakeProxy`, not to the upstream proxy. -/
theorem hit_saturated_at_maxInt_goes_to_peer :
    (statWrapping.Connections + 1 ≥ statWrapping.MaxConnections) ∧
    wrapInt (statWrapping.Connections + 1) = minInt ∧
    upstreamServes (ProxyRequestHandler exampleServer
      (exampleEnv ["\"abc123\""] true (.ok statWrapping)) "/proxy" exampleRequest).trace = [] ∧
    peerCalls (ProxyRequestHandler exampleServer
      (exampleEnv ["\"abc123\""] true (.ok statWrapping)) "/proxy" exampleRequest).trace
      = [(exampleRequest, statWrapping, "/fs/proxypkgsfootgzabc123")] ∧
    fakeServes (ProxyRequestHandler exampleServer
      (exampleEnv ["\"abc123\""] true (.ok statWrapping)) "/proxy" exampleRequest).trace
      = [{ exampleRequest with URL := "/fs/proxypkgsfootgzabc123" }] :=
  ⟨by decide, by decide, by decide, by decide, by decide⟩

/-- C4, amended: an eligible GET request that is a cache hit, the scheduler
answering with `Connections + 1 ≥ MaxConnections` and `Connections` below
`maxInt`, so that the sum does not wrap, is dispatched once to the upstream
proxy, as the last call; `proxyToPeer` is not called, `fakeProxy` is not used
and nothing is pushed. -/
theorem hit_saturated_goes_upstream (srv : Server) (env : Env) (proxyPath : String)
    (r headReq : Request) (host e : String) (es : List String) (resp : Response)
    (self : NodeStat)
    (hRegex : srv.Regex r.RequestURI = true) (hGet : r.Method = "GET")
    (hHost : (stringsSplit srv.Address "://")[1]? = some host)
    (hHead : env.copyRequest r (srv.Address ++ stringsTrimPrefix r.RequestURI proxyPath) host
      "HEAD" = .ok headReq)
    (hProbe : env.runRequestCheck headReq = .ok resp)
    (hEtag : resp.Header "Etag" = e :: es)
    (hHit : env.osStat (srv.DataDir ++ "/" ++ env.generateHash r.URL e) = true)
    (hInfo : env.nodeInfo = .ok self)
    (hFull : self.Connections + 1 ≥ self.MaxConnections)
    (hNoWrap : self.Connections < maxInt) :
    (ProxyRequestHandler srv env proxyPath r).panicked = none ∧
    upstreamServes (ProxyRequestHandler srv env proxyPath r).trace = [r] ∧
    peerCalls (ProxyRequestHandler srv env proxyPath r).trace = [] ∧
    fakeServes (ProxyRequestHandler srv env proxyPath r).trace = [] ∧
    pushed (ProxyRequestHandler srv env proxyPath r).trace = [] ∧
    (ProxyRequestHandler srv env proxyPath r).trace.getLast? = some (.serveUpstream r) := by
  have hw : wrapInt (self.Connections + 1) = self.Connections + 1 :=
    wrapInt_eq _ (by have := self.connectionsInt.1; omega) (by omega)
  have hge : self.MaxConnections ≤ self.Connections + 1 := hFull
  simp [ProxyRequestHandler, hRegex, hGet, hHost, hHead, hProbe, hEtag, hHit, hInfo, hw, hge,
    runProxy, pushed, upstreamServes, fakeServes, peerCalls]

/-- C4, amended, at `connections = 4`, `maxConnections = 5`. -/
theorem hit_saturated_goes_upstream_witness :
    (statSaturated.Connections + 1 ≥ statSaturated.MaxConnections) ∧
    statSaturated.Connections < maxInt ∧
    upstreamServes (ProxyRequestHandler exampleServer
      (exampleEnv ["\"abc123\""] true (.ok statSaturated)) "/proxy" exampleRequest).trace
      = [exampleRequest] ∧
    peerCalls (ProxyRequestHandler exampleServer
      (exampleEnv ["\"abc123\""] true (.ok statSaturated)) "/proxy" exampleRequest).trace = [] :=
  ⟨by decide, by decide,
   (hit_saturated_goes_upstream exampleServer (exampleEnv ["\"abc123\""] true (.ok statSaturated))
      "/proxy" exampleRequest exampleHead "origin.example" "\"abc123\"" []
      (exampleHeadResponse ["\"abc123\""]) statSaturated
      (by decide) (by decide) (by decide) (congrArg Except.ok (by decide)) rfl (by decide) rfl
      rfl (by decide) (by decide)).2.1,
   by decide⟩

/-- C9: an eligible GET request that is a cache hit, the scheduler's `Info`
returning an error, is dispatched once to the upstream proxy, as the last
call; `proxyToPeer` is not called, `fakeProxy` is not used and nothing is
pushed. -/
theorem hit_scheduler_error_goes_upstream (srv : Server) (env : Env) (proxyPath : String)
    (r headReq : Request) (host e err : String) (es : List String) (resp : Response)
    (hRegex : srv.Regex r.RequestURI = true) (hGet : r.Method = "GET")
    (hHost : (stringsSplit srv.Address "://")[1]? = some host)
    (hHead : env.copyRequest r (srv.Address ++ stringsTrimPrefix r.RequestURI proxyPath) host
      "HEAD" = .ok headReq)
    (hProbe : env.runRequestCheck headReq = .ok resp)
    (hEtag : resp.Header "Etag" = e :: es)
    (hHit : env.osStat (srv.DataDir ++ "/" ++ env.generateHash r.URL e) = true)
    (hInfo : env.nodeInfo = .error err) :
    (ProxyRequestHandler srv env proxyPath r).panicked = none ∧
    upstreamServes (ProxyRequestHandler srv env proxyPath r).trace = [r] ∧
    peerCalls (ProxyRequestHandler srv env proxyPath r).trace = [] ∧
    fakeServes (ProxyRequestHandler srv env proxyPath r).trace = [] ∧
    pushed (ProxyRequestHandler srv env proxyPath r).trace = [] ∧
    (ProxyRequestHandler srv env proxyPath r).trace.getLast? = some (.serveUpstream r) := by
  simp [ProxyRequestHandler, hRegex, hGet, hHost, hHead, hProbe, hEtag, hHit, hInfo,
    runProxy, pushed, upstreamServes, fakeServes, peerCalls]

/-- C9 with the scheduler unreachable. -/
theorem hit_scheduler_error_goes_upstream_witness :
    upstreamServes (ProxyRequestHandler exampleServer
      (exampleEnv ["\"abc123\""] true (.error "scheduler unreachable")) "/proxy"
      exampleRequest).trace = [exampleRequest] ∧
    fakeServes (ProxyRequestHandler exampleServer
      (exampleEnv ["\"abc123\""] true (.error "scheduler unreachable")) "/proxy"
      exampleRequest).trace = [] :=
  ⟨(hit_scheduler_error_goes_upstream exampleServer
      (exampleEnv ["\"abc123\""] true (.error "scheduler unreachable")) "/proxy" exampleRequest
      exampleHead "origin.example" "\"abc123\"" "scheduler unreachable" []
      (exampleHeadResponse ["\"abc123\""])
      (by decide) (by decide) (by decide) (congrArg Except.ok (by decide)) rfl (by decide) rfl
      rfl).2.1,
   by decide⟩

/-- C8: with the probe helper as the spec describes it, an eligible GET
request whose HEAD probe fails in transport, or is answered without an Etag
header, is dispatched once to the upstream proxy, as the last call; nothing is
pushed, the scheduler is not asked, `fakeProxy` is not used and the handler
does not panic on the Etag lookup. -/
theorem failed_probe_goes_upstream (srv : Server) (env : Env) (proxyPath : String)
    (r headReq : Request) (host : String) (clientDo : Request → Except String Response)
    (hRegex : srv.Regex r.RequestURI = true) (hGet : r.Method = "GET")
    (hHost : (stringsSplit srv.Address "://")[1]? = some host)
    (hHead : env.copyRequest r (srv.Address ++ stringsTrimPrefix r.RequestURI proxyPath) host
      "HEAD" = .ok headReq)
    (hFail : (∃ err, clientDo headReq = .error err) ∨
      (∃ resp, clientDo headReq = .ok resp ∧ resp.Header "Etag" = [])) :
    (ProxyRequestHandler srv { env with runRequestCheck := runRequestCheck clientDo } proxyPath
      r).panicked = none ∧
    headProbes (ProxyRequestHandler srv { env with runRequestCheck := runRequestCheck clientDo }
      proxyPath r).trace = [headReq] ∧
    upstreamServes (ProxyRequestHandler srv { env with runRequestCheck := runRequestCheck clientDo }
      proxyPath r).trace = [r] ∧
    pushed (ProxyRequestHandler srv { env with runRequestCheck := runRequestCheck clientDo }
      proxyPath r).trace = [] ∧
    infoCalls (ProxyRequestHandler srv { env with runRequestCheck := runRequestCheck clientDo }
      proxyPath r).trace = 0 ∧
    fakeServes (ProxyRequestHandler srv { env with runRequestCheck := runRequestCheck clientDo }
      proxyPath r).trace = [] ∧
    (ProxyRequestHandler srv { env with runRequestCheck := runRequestCheck clientDo } proxyPath
      r).trace.getLast? = some (.serveUpstream r) := by
  have hCheck : ∃ err, runRequestCheck clientDo headReq = .error err := by
    rcases hFail with ⟨err, h⟩ | ⟨resp, h, hE⟩
    · exact ⟨err, by simp [runRequestCheck, h]⟩
    · exact ⟨"missing Etag header", by simp [runRequestCheck, h, hE]⟩
  obtain ⟨err, hErr⟩ := hCheck
  simp [ProxyRequestHandler, hRegex, hGet, hHost, hHead, hErr, runProxy, pushed, headProbes,
    infoCalls, upstreamServes, fakeServes]

/-- C8 at an upstream that answers the HEAD probe without an Etag header. -/
theorem failed_probe_goes_upstream_witness :
    (ProxyRequestHandler exampleServer
      { exampleEnv [] true (.ok statAdmitted) with
        runRequestCheck := runRequestCheck (fun _ => .ok (exampleHeadResponse [])) }
      "/proxy" exampleRequest).panicked = none ∧
    upstreamServes (ProxyRequestHandler exampleServer
      { exampleEnv [] true (.ok statAdmitted) with
        runRequestCheck := runRequestCheck (fun _ => .ok (exampleHeadResponse [])) }
      "/proxy" exampleRequest).trace = [exampleRequest] :=
  ⟨(failed_probe_goes_upstream exampleServer (exampleEnv [] true (.ok statAdmitted)) "/proxy"
      exampleRequest exampleHead "origin.example" (fun _ => .ok (exampleHeadResponse []))
      (by decide) (by decide) (by decide) (congrArg Except.ok (by decide))
      (Or.inr ⟨exampleHeadResponse [], rfl, rfl⟩)).1,
   by decide⟩

/-! ## File-server accounting -/

/-- Counterexample to C7 as stated: the wrapped handler panics instead of
returning (as `net/http` handlers do to abort a response); `AddConnection` and
`ServeHTTP` have been called, the panic leaves the closure, and
`RemoveConnection` is not called. -/
theorem fileserver_panic_skips_remove :
    calls (HandleFileserver ⟨none, none⟩
      (fun (w : String) (_ : Request) => (w, some "net/http: abort Handler")) ""
      exampleRequest).trace = [.addConnection, .serveFile exampleRequest] ∧
    (HandleFileserver ⟨none, none⟩
      (fun (w : String) (_ : Request) => (w, some "net/http: abort Handler")) ""
      exampleRequest).panicked = some "net/http: abort Handler" :=
  ⟨by decide, by decide⟩

/-- C7, amended: when the wrapped handler's `ServeHTTP` returns, the handler
built by `HandleFileserver` calls `AddConnection`, then `ServeHTTP` on the
request it received, then `RemoveConnection`, each exactly once and in that
order, whatever the two scheduler calls return; the writer after serving is
the wrapped handler's result on the writer and request received, so the two
errors change neither what the wrapped handler is given nor what the client
gets. -/
theorem fileserver_counts_once_around_serve {W : Type} (env : FileserverEnv)
    (h : W → Request → W × Option String) (w : W) (r : Request)
    (hRet : (h w r).2 = none) :
    calls (HandleFileserver env h w r).trace
      = [.addConnection, .serveFile r, .removeConnection] ∧
    (HandleFileserver env h w r).writer = (h w r).1 ∧
    (HandleFileserver env h w r).panicked = none := by
  rcases hh : h w r with ⟨w1, p⟩
  rw [hh] at hRet
  simp only at hRet
  subst hRet
  cases env with
  | mk a b => cases a <;> cases b <;> simp [HandleFileserver, calls, hh]

/-- C7, amended, at a handler that writes the request URL and returns, with
both scheduler calls failing. -/
theorem fileserver_counts_once_around_serve_witness :
    calls (HandleFileserver ⟨some "scheduler unreachable", some "scheduler unreachable"⟩
      (fun (w : String) (q : Request) => (w ++ q.URL, none)) "" exampleRequest).trace
      = [.addConnection, .serveFile exampleRequest, .removeConnection] ∧
    (HandleFileserver ⟨some "scheduler unreachable", some "scheduler unreachable"⟩
      (fun (w : String) (q : Request) => (w ++ q.URL, none)) "" exampleRequest).writer
      = "/proxy/pkgs/foo.tgz" :=
  ⟨(fileserver_counts_once_around_serve
      ⟨some "scheduler unreachable", some "scheduler unreachable"⟩
      (fun (w : String) (q : Request) => (w ++ q.URL, none)) "" exampleRequest rfl).1,
   by decide⟩

/-! ## The downloader loop -/

/-- The digits `Nat.toDigitsCore` produces on top of a non-empty list are a
non-empty list. -/
theorem toDigitsCore_ne_nil (b fuel n : Nat) (ds : List Char) (h : ds ≠ []) :
    Nat.toDigitsCore b fuel n ds ≠ [] := by
  induction fuel generalizing n ds with
  | zero => simpa [Nat.toDigitsCore] using h
  | succ f ih =>
    unfold Nat.toDigitsCore
    simp only
    split
    · simp
    · exact ih _ _ (by simp)

/-- The decimal rendering of a number is not the empty string. -/
theorem repr_ne_empty (n : Nat) : Nat.repr n ≠ "" := by
  intro h
  have h1 : (Nat.repr n).data = [] := by rw [h]
  have h2 : Nat.toDigitsCore 10 (n + 1) n [] ≠ [] := by
    unfold Nat.toDigitsCore
    simp only
    split
    · simp
    · exact toDigitsCore_ne_nil _ _ _ _ (by simp)
  exact h2 (by simpa [Nat.repr, Nat.toDigits, List.asString] using h1)

/-- On `content-length`, `Header.Get` reads the first value stored under
`Content-Length`. -/
theorem header_get_content_length (h : Header) :
    Header.Get h "content-length" = (h "Content-Length").headD "" := by
  have hk : String.mk (canonicalMIMEHeaderKeyGo true "content-length".data) = "Content-Length" := by
    decide
  simp [Header.Get, hk]

/-- C6: in an iteration of `Run` with the kill switch set, nothing is
received from the queue, `download` and `os.Remove` are not called, and the
state (queue, files, switch) is unchanged.  With the switch not set, the
iteration waits while the queue is empty, and otherwise receives exactly the
first item and calls `download` exactly once, on that item: the files
afterwards are those `download` left on that item (after `os.Remove` on its
path when `download` returned an error, and only then), and the rest of the
queue is left as it was. -/
theorem run_iteration_obeys_killswitch (env : DownloadEnv) (s : DownloaderState) :
    (s.Trigger = true →
      ∃ t, runIteration env s = some (s, t) ∧ popped t = [] ∧ downloaded t = [] ∧ removed t = []) ∧
    (s.Trigger = false →
      (s.Queue = [] → runIteration env s = none) ∧
      (∀ item rest, s.Queue = item :: rest →
        ∃ s' t, runIteration env s = some (s', t) ∧ s'.Queue = rest ∧ s'.Trigger = false ∧
          s'.fs = filesAfter env s.fs item ∧
          popped t = [item] ∧ downloaded t = [item] ∧
          removed t = (if (download env s.fs item).2.isSome then [item.FilePath] else []))) := by
  refine ⟨fun hT => ?_, fun hT => ⟨fun hQ => ?_, fun item rest hQ => ?_⟩⟩
  · simp [runIteration, hT, popped, downloaded, removed]
  · simp [runIteration, hT, Pop, hQ]
  · obtain ⟨t, hrun, hp, hd, hr⟩ := runIteration_receives env s item rest hT hQ
    exact ⟨_, t, hrun, rfl, rfl, rfl, hp, hd, hr⟩

/-- C6 at a paused downloader with one item waiting, and at a running one,
which stores the three bytes of the response at the item's path. -/
theorem run_iteration_obeys_killswitch_witness :
    (∃ t, runIteration (exampleDownloadEnv ["3"] [1, 2, 3] none none)
        (exampleState [exampleItem] true) = some (exampleState [exampleItem] true, t) ∧
      popped t = [] ∧ downloaded t = [] ∧ removed t = []) ∧
    (∃ s' t, runIteration (exampleDownloadEnv ["3"] [1, 2, 3] none none)
        (exampleState [exampleItem] false) = some (s', t) ∧ s'.Queue = [] ∧
      s'.Trigger = false ∧
      s'.fs = filesAfter (exampleDownloadEnv ["3"] [1, 2, 3] none none) (fun _ => none)
        exampleItem ∧
      popped t = [exampleItem] ∧ downloaded t = [exampleItem] ∧ removed t = []) ∧
    filesAfter (exampleDownloadEnv ["3"] [1, 2, 3] none none) (fun _ => none) exampleItem
      exampleItem.FilePath = some [1, 2, 3] :=
  ⟨(run_iteration_obeys_killswitch (exampleDownloadEnv ["3"] [1, 2, 3] none none)
      (exampleState [exampleItem] true)).1 rfl,
   ((run_iteration_obeys_killswitch (exampleDownloadEnv ["3"] [1, 2, 3] none none)
      (exampleState [exampleItem] false)).2 rfl).2 exampleItem [] rfl,
   by decide⟩

/-! ## The size check of `download` -/

/-- The outcome of `download` once the request, the file creation and the
copy have succeeded: the file holds the body, and the error is the size
mismatch exactly when `Header.Get` on `content-length` is not the decimal
rendering of the body length. -/
theorem download_after_copy (env : DownloadEnv) (fs : FS) (item : Item) (resp : Response)
    (hDo : env.clientDo item.Req = .ok resp) (hCreate : env.osCreate item.FilePath = none)
    (hCopy : env.ioCopy resp = none) :
    download env fs item =
      (fs.write item.FilePath resp.Body,
        if Header.Get resp.Header "content-length" = Nat.repr resp.Body.length then none
        else some (.sizeMismatch (Header.Get resp.Header "content-length")
          (Nat.repr resp.Body.length))) := by
  by_cases h : Header.Get resp.Header "content-length" = Nat.repr resp.Body.length
  · simp [download, hDo, hCreate, hCopy, h]
  · simp [download, hDo, hCreate, hCopy, h]

/-- Counterexample to C10 as stated: the response carries no `Content-Length`
header, its three bytes are copied without error, and `download` returns the
size-mismatch error (wanted the empty string, actual `3`). -/
theorem absent_content_length_is_a_size_mismatch :
    (exampleDownloadEnv [] [1, 2, 3] none none).clientDo exampleItem.Req
      = .ok (exampleResponse [] [1, 2, 3]) ∧
    (exampleDownloadEnv [] [1, 2, 3] none none).osCreate exampleItem.FilePath = none ∧
    (exampleDownloadEnv [] [1, 2, 3] none none).ioCopy (exampleResponse [] [1, 2, 3]) = none ∧
    (exampleResponse [] [1, 2, 3]).Header "Content-Length" = [] ∧
    (download (exampleDownloadEnv [] [1, 2, 3] none none) (fun _ => none) exampleItem).2
      = some (.sizeMismatch "" "3") ∧
    isSizeMismatch
      (download (exampleDownloadEnv [] [1, 2, 3] none none) (fun _ => none) exampleItem).2
      = true :=
  ⟨rfl, rfl, rfl, by decide, by decide, by decide⟩

/-- C10, amended: for a response whose body was copied without error,
`download` returns the size-mismatch error exactly when `Header.Get` on
`content-length` (the first value of the header, the empty string when the
header is absent) differs from the decimal rendering of the number of bytes
copied, and returns no error otherwise; in particular a response without a
`Content-Length` header always gets the size-mismatch error. -/
theorem size_check_compares_header_get (env : DownloadEnv) (fs : FS) (item : Item)
    (resp : Response)
    (hDo : env.clientDo item.Req = .ok resp) (hCreate : env.osCreate item.FilePath = none)
    (hCopy : env.ioCopy resp = none) :
    (isSizeMismatch (download env fs item).2 = true ↔
      (resp.Header "Content-Length").headD "" ≠ Nat.repr resp.Body.length) ∧
    ((download env fs item).2 = none ↔
      (resp.Header "Content-Length").headD "" = Nat.repr resp.Body.length) ∧
    (resp.Header "Content-Length" = [] → isSizeMismatch (download env fs item).2 = true) := by
  have hd := download_after_copy env fs item resp hDo hCreate hCopy
  have hg := header_get_content_length resp.Header
  have hiff : isSizeMismatch (download env fs item).2 = true ↔
      (resp.Header "Content-Length").headD "" ≠ Nat.repr resp.Body.length := by
    rw [hd, hg]
    by_cases h : (resp.Header "Content-Length").headD "" = Nat.repr resp.Body.length
    · rw [if_pos h]
      exact ⟨fun hc => by simp [isSizeMismatch] at hc, fun hc => absurd h hc⟩
    · rw [if_neg h]
      exact ⟨fun _ => h, fun _ => rfl⟩
  refine ⟨hiff, ?_, fun hAbsent => ?_⟩
  · rw [hd, hg]
    by_cases h : (resp.Header "Content-Length").headD "" = Nat.repr resp.Body.length
    · rw [if_pos h]
      exact ⟨fun _ => h, fun _ => rfl⟩
    · rw [if_neg h]
      exact ⟨fun hc => by simp at hc, fun hc => absurd hc h⟩
  · rw [hiff, hAbsent]
    exact fun h => repr_ne_empty _ h.symm

/-- C10, amended, at a response that declares `Content-Length: 3` and
delivers three bytes: no error; the file holds the three bytes. -/
theorem size_check_compares_header_get_witness :
    (download (exampleDownloadEnv ["3"] [1, 2, 3] none none) (fun _ => none) exampleItem).2
      = none ∧
    (download (exampleDownloadEnv ["3"] [1, 2, 3] none none) (fun _ => none) exampleItem).1
      exampleItem.FilePath = some [1, 2, 3] :=
  ⟨((size_check_compares_header_get (exampleDownloadEnv ["3"] [1, 2, 3] none none)
      (fun _ => none) exampleItem (exampleResponse ["3"] [1, 2, 3]) rfl rfl rfl).2.1).mpr
      (by decide),
   by decide⟩

/-! ## Integrity of the file after an iteration -/

/-- After `os.Remove` on a path whose removal is not refused there is no file
at that path. -/
theorem osRemove_gone (env : DownloadEnv) (fs : FS) (p : String)
    (h : env.osRemove p = none) : (osRemove env fs p).1 p = none := by
  unfold osRemove
  cases hp : fs p with
  | none => simpa using hp
  | some b => simp [h, FS.erase]

/-- When `download` returns no error, the response was received, the file
holds its body, and `Header.Get` on `content-length` is the decimal rendering
of the body length. -/
theorem download_ok (env : DownloadEnv) (fs : FS) (item : Item)
    (h : (download env fs item).2 = none) :
    ∃ resp, env.clientDo item.Req = .ok resp ∧
      (download env fs item).1 = fs.write item.FilePath resp.Body ∧
      Header.Get resp.Header "content-length" = Nat.repr resp.Body.length := by
  cases hDo : env.clientDo item.Req with
  | error e => simp [download, hDo] at h
  | ok resp =>
    cases hCreate : env.osCreate item.FilePath with
    | some e => simp [download, hDo, hCreate] at h
    | none =>
      cases hCopy : env.ioCopy resp with
      | some ne => simp [download, hDo, hCreate, hCopy] at h
      | none =>
        have hd := download_after_copy env fs item resp hDo hCreate hCopy
        by_cases hEq : Header.Get resp.Header "content-length" = Nat.repr resp.Body.length
        · exact ⟨resp, rfl, by rw [hd], hEq⟩
        · rw [hd, if_neg hEq] at h
          simp at h

/-- Counterexample to C5 as stated: the response declares five bytes, the copy
stops with an error after three, and `os.Remove` on the partial file is
refused; after the iteration the three bytes are still at the item's path, so
the file is neither absent nor of the declared length. -/
theorem refused_removal_leaves_truncated_file :
    ∃ s' t,
      runIteration (exampleDownloadEnv ["5"] [1, 2, 3, 4, 5] (some (3, "unexpected EOF"))
        (some "permission denied")) (exampleState [exampleItem] false) = some (s', t) ∧
      removed t = [exampleItem.FilePath] ∧
      s'.fs exampleItem.FilePath = some [1, 2, 3] ∧
      ¬ fileIntact (exampleDownloadEnv ["5"] [1, 2, 3, 4, 5] (some (3, "unexpected EOF"))
        (some "permission denied")) s'.fs exampleItem := by
  refine ⟨_, _, rfl, by decide, by decide, ?_⟩
  rintro (h | ⟨resp, bytes, hDo, hFile, hLen⟩)
  · exact absurd h (by decide)
  · have hb : bytes = [1, 2, 3] := by
      have : (some [1, 2, 3] : Option (List Nat)) = some bytes := by
        rw [← hFile]; decide
      exact (Option.some.inj this).symm
    have hr : resp = exampleResponse ["5"] [1, 2, 3, 4, 5] := by
      have : (Except.ok (exampleResponse ["5"] [1, 2, 3, 4, 5]) : Except String Response)
          = .ok resp := hDo
      exact (Except.ok.inj this).symm
    subst hb hr
    exact absurd hLen (by decide)

/-- C5, amended: for every item received by an iteration of `Run` in which
`os.Remove` is not refused on the item's path, after the iteration either
there is no file at the item's path, or there is one whose byte length is the
value of the response's `Content-Length` header. -/
theorem iteration_leaves_intact_file (env : DownloadEnv) (s : DownloaderState) (item : Item)
    (rest : List Item) (hT : s.Trigger = false) (hQ : s.Queue = item :: rest)
    (hRm : env.osRemove item.FilePath = none) :
    ∃ s' t, runIteration env s = some (s', t) ∧ fileIntact env s'.fs item := by
  obtain ⟨t, hrun, _⟩ := runIteration_receives env s item rest hT hQ
  refine ⟨_, t, hrun, ?_⟩
  show fileIntact env (filesAfter env s.fs item) item
  unfold filesAfter
  cases hd : (download env s.fs item).2 with
  | some e =>
    left
    exact osRemove_gone env _ _ hRm
  | none =>
    obtain ⟨resp, hDo, hfile, hget⟩ := download_ok env s.fs item hd
    right
    refine ⟨resp, resp.Body, hDo, ?_, ?_⟩
    · show (download env s.fs item).1 item.FilePath = some resp.Body
      rw [hfile]
      simp [FS.write]
    · rw [header_get_content_length] at hget
      cases hl : resp.Header "Content-Length" with
      | nil =>
        rw [hl] at hget
        exact absurd hget.symm (repr_ne_empty _)
      | cons v vs =>
        rw [hl] at hget
        simpa using hget

/-- C5, amended, at a response that declares `Content-Length: 3` and delivers
three bytes, and at one whose copy fails and whose partial file is removed. -/
theorem iteration_leaves_intact_file_witness :
    (∃ s' t, runIteration (exampleDownloadEnv ["3"] [1, 2, 3] none none)
        (exampleState [exampleItem] false) = some (s', t) ∧
      fileIntact (exampleDownloadEnv ["3"] [1, 2, 3] none none) s'.fs exampleItem) ∧
    (∃ s' t, runIteration (exampleDownloadEnv ["5"] [1, 2, 3, 4, 5] (some (3, "unexpected EOF"))
        none) (exampleState [exampleItem] false) = some (s', t) ∧
      s'.fs exampleItem.FilePath = none) :=
  ⟨iteration_leaves_intact_file (exampleDownloadEnv ["3"] [1, 2, 3] none none)
      (exampleState [exampleItem] false) exampleItem [] rfl rfl rfl,
   ⟨_, _, rfl, by decide⟩⟩

end Dpc
